import Mathlib

/-!
Verification of the authentication/authorization core of the books API
gateway (`server.js`): the `jwtAuth` credential verifier middleware, the
`requireRole` policy enforcer, and their composition as ordered,
short-circuiting stages in front of each protected route handler.

The JavaScript code is shallowly embedded: JS claim values that matter
here (strings, numbers, `undefined`) become an inductive type, the
external `jsonwebtoken` library's `verify` is modelled from the spec as a
function over an abstract token-decoding environment, and each Express
middleware becomes a pure function from a request to a typed outcome.
-/

namespace BooksApi

/-- A JavaScript value as it can appear in a decoded JWT claim: a string,
a number (restricted to integers, which covers the claims used here), or
`undefined` for an absent claim. -/
inductive JVal where
  | str (s : String)
  | num (n : Int)
  | undef
deriving DecidableEq

/-- JavaScript `String(v)` coercion on the claim values above:
`String(7) = "7"`, `String("x") = "x"`, `String(undefined) = "undefined"`. -/
def jsStringOf : JVal → String
  | .str s => s
  | .num n => toString n
  | .undef => "undefined"

/-- The claims of a decoded token that `jwtAuth` reads: `decoded.userId`
and `decoded.role`. -/
structure JwtClaims where
  userId : JVal
  role : JVal
deriving DecidableEq

/-- Modelled from the spec: a signed, self-contained token as produced by
the external issuer — it records the secret it was signed with, whether it
has expired, and its claims. The `jsonwebtoken` library itself is not part
of this repository. -/
structure SignedToken where
  signedWith : String
  expired : Bool
  claims : JwtClaims
deriving DecidableEq

/-- Modelled from the spec: the decoding side of the external token
format — which raw token strings are well-formed encodings of which signed
tokens (`none` for malformed strings). -/
abbrev TokenEnv := String → Option SignedToken

/-- Modelled from the spec: `jwt.verify(token, secret)` — succeeds with the
decoded claims exactly when the token string is well-formed, signed with
the given secret, and unexpired; every failure (malformed, bad signature,
expired) is collapsed into `none` (the library throws, `jwtAuth` catches). -/
def jwtVerify (env : TokenEnv) (secret : String) (tok : String) : Option JwtClaims :=
  match env tok with
  | none => none
  | some t => if t.signedWith = secret ∧ t.expired = false then some t.claims else none

/-- JavaScript `s.startsWith(p)`, computed structurally on the character
lists so that it evaluates by kernel reduction. -/
def jsStartsWith (s p : String) : Bool := s.toList.take p.toList.length == p.toList

/-- JavaScript `s.slice(n)`: drop the first `n` characters. -/
def jsSlice (s : String) (n : Nat) : String := String.mk (s.toList.drop n)

/-- Strip leading whitespace characters from a character list. -/
def trimLeadWs : List Char → List Char
  | [] => []
  | c :: cs => if c.isWhitespace then trimLeadWs cs else c :: cs

/-- JavaScript `s.trim()`: strip whitespace from both ends (modelled over
the ASCII whitespace characters of `Char.isWhitespace`). -/
def jsTrim (s : String) : String :=
  String.mk ((trimLeadWs ((trimLeadWs s.toList).reverse)).reverse)

/-- The slice of an Express request that the auth core reads: the raw
`authorization` header (absent or a string), plus the request path and
body, which `jwtAuth` and `requireRole` never look at. -/
structure Request where
  authorization : Option String
  path : String
  body : String
deriving DecidableEq

/-- The `req.user` object attached by `jwtAuth`:
`{ userId: String(decoded.userId), role: decoded.role }`. -/
structure User where
  userId : String
  role : JVal
deriving DecidableEq

/-- Outcome of the `jwtAuth` middleware: either `next()` is called with
`req.user` set, or the request is terminated with a status and a JSON
error body. -/
inductive MwResult where
  | next (user : User)
  | reject (status : Nat) (error : String) (message : String)
deriving DecidableEq

/-- The fixed message sent when the bearer header is missing/malformed. -/
def missingTokenMsg : String :=
  "Token Bearer tidak ditemukan. Tambahkan Authorization: Bearer <token>."

/-- The fixed message sent when token verification fails. -/
def invalidTokenMsg : String := "Token tidak valid atau sudah kedaluwarsa."

/-- The fixed message sent on an authorization (role) failure. -/
def forbiddenMsg : String := "Anda tidak memiliki izin untuk mengakses endpoint ini."

/-- The `jwtAuth` middleware of `server.js`: read the authorization header
(defaulting to `""`), require the literal prefix `"Bearer "`, slice off the
prefix and trim the remainder, verify it, and on success attach
`{ userId: String(decoded.userId), role: decoded.role }`. -/
def jwtAuth (env : TokenEnv) (secret : String) (req : Request) : MwResult :=
  let header := req.authorization.getD ""
  if jsStartsWith header "Bearer " then
    let token := jsTrim (jsSlice header 7)
    match jwtVerify env secret token with
    | some decoded => .next ⟨jsStringOf decoded.userId, decoded.role⟩
    | none => .reject 401 "TidakTerautentikasi" invalidTokenMsg
  else
    .reject 401 "TidakTerautentikasi" missingTokenMsg

/-- JavaScript `allowedRoles.includes(req.user.role)` where `allowedRoles`
is a list of strings: `includes` uses strict equality, so a non-string
role value is never a member. -/
def jvalInList (xs : List String) : JVal → Bool
  | .str s => xs.contains s
  | _ => false

/-- Outcome of the `requireRole(...)` middleware: `next()` or a terminated
request. -/
inductive RoleResult where
  | next
  | reject (status : Nat) (error : String) (message : String)
deriving DecidableEq

/-- The `requireRole(...allowedRoles)` middleware of `server.js`: reject
with 403 if `req.user` is unset or its role is not included in the allowed
roles; otherwise call `next()`. -/
def requireRole (allowedRoles : List String) (user : Option User) : RoleResult :=
  match user with
  | none => .reject 403 "AksesDitolak" forbiddenMsg
  | some u =>
    if jvalInList allowedRoles u.role then .next
    else .reject 403 "AksesDitolak" forbiddenMsg

/-- The stages of the per-request pipeline that can execute for a
protected route. -/
inductive Stage where
  | authenticating
  | authorizing
  | handling
deriving DecidableEq

/-- Terminal outcome of the pipeline for a protected route. -/
inductive Outcome where
  | handled (user : User)
  | rejected (status : Nat) (error : String) (message : String)
deriving DecidableEq

/-- The Express route wiring `app.VERB(path, jwtAuth, requireRole(...), handler)`:
the stages run in order and each failure short-circuits the rest. The
returned trace records exactly which stages executed. -/
def pipeline (env : TokenEnv) (secret : String) (allowedRoles : List String)
    (req : Request) : List Stage × Outcome :=
  match jwtAuth env secret req with
  | .reject s e m => ([.authenticating], .rejected s e m)
  | .next user =>
    match requireRole allowedRoles (some user) with
    | .reject s e m => ([.authenticating, .authorizing], .rejected s e m)
    | .next => ([.authenticating, .authorizing, .handling], .handled user)

/-- The protected routes declared in `server.js`, each with its declared
allowed-role list. -/
def routes : List (String × String × List String) :=
  [("GET", "/api/books", ["member", "librarian"]),
   ("GET", "/api/books/genres/:genres", ["member", "librarian"]),
   ("GET", "/api/books/year/:year", ["member", "librarian"]),
   ("GET", "/api/books/author/:author", ["member", "librarian"]),
   ("GET", "/api/books/:id", ["member", "librarian"]),
   ("POST", "/api/books", ["librarian"]),
   ("PUT", "/api/books/:id", ["librarian"]),
   ("DELETE", "/api/books/:id", ["librarian"]),
   ("GET", "/api/stats", ["member", "librarian"])]

/-- The hardcoded fallback secret of `server.js` line 9. -/
def defaultSecret : String := "your-secret-key-change-this"

/-- `const JWT_SECRET = process.env.JWT_SECRET || 'your-secret-key-change-this'`:
JavaScript `||` takes the fallback when the environment variable is absent
or the empty string (falsy). -/
def JWT_SECRET (envVal : Option String) : String :=
  match envVal with
  | none => defaultSecret
  | some s => if s = "" then defaultSecret else s

/-- A concrete token environment used to exercise the theorems on closed
inputs: a handful of well-formed token strings with various signing
secrets, expiry flags and claims; every other string is malformed. -/
def demoEnv : TokenEnv := fun t =>
  if t = "tok7" then some ⟨"sec", false, ⟨.num 7, .str "member"⟩⟩
  else if t = "tokAdmin" then some ⟨"sec", false, ⟨.num 9, .str "admin"⟩⟩
  else if t = "tokNoUid" then some ⟨"sec", false, ⟨.undef, .str "member"⟩⟩
  else if t = "tokWrong" then some ⟨"other", false, ⟨.num 7, .str "member"⟩⟩
  else if t = "tokExpired" then some ⟨"sec", true, ⟨.num 7, .str "member"⟩⟩
  else none

/-- `jwtAuth` rejects only with status 401 and error `TidakTerautentikasi`. -/
theorem lem_jwtAuth_reject401 (env : TokenEnv) (secret : String) (req : Request)
    (s : Nat) (e m : String) (h : jwtAuth env secret req = MwResult.reject s e m) :
    s = 401 ∧ e = "TidakTerautentikasi" := by
  simp only [jwtAuth] at h
  split at h
  · split at h
    · exact MwResult.noConfusion h
    · injection h with h1 h2 h3
      exact ⟨h1.symm, h2.symm⟩
  · injection h with h1 h2 h3
    exact ⟨h1.symm, h2.symm⟩

/-- On a well-prefixed header whose token verifies, `jwtAuth` attaches the
coerced identity and calls `next`. -/
theorem lem_jwtAuth_ok (env : TokenEnv) (secret : String) (req : Request)
    (hdr : String) (t : SignedToken)
    (hh : req.authorization = some hdr)
    (hp : jsStartsWith hdr "Bearer " = true)
    (he : env (jsTrim (jsSlice hdr 7)) = some t)
    (hs : t.signedWith = secret)
    (hx : t.expired = false) :
    jwtAuth env secret req = MwResult.next ⟨jsStringOf t.claims.userId, t.claims.role⟩ := by
  simp only [jwtAuth, jwtVerify, hh, Option.getD, hp, he, hs, hx, if_true]
  simp

/-- On a well-prefixed header whose token fails verification, `jwtAuth`
rejects with the fixed invalid-token message. -/
theorem lem_jwtAuth_invalid (env : TokenEnv) (secret : String) (req : Request)
    (hdr : String)
    (hh : req.authorization = some hdr)
    (hp : jsStartsWith hdr "Bearer " = true)
    (hv : jwtVerify env secret (jsTrim (jsSlice hdr 7)) = none) :
    jwtAuth env secret req = MwResult.reject 401 "TidakTerautentikasi" invalidTokenMsg := by
  simp only [jwtAuth, hh, Option.getD, hp, if_true, hv]

/-- A role outside the closed set is in no declared allowed-role list. -/
theorem lem_role_subset (r : JVal)
    (h : jvalInList ["member", "librarian"] r = false) :
    jvalInList ["librarian"] r = false := by
  cases r with
  | str s =>
    simp [jvalInList] at h ⊢
    exact fun hs => h.2 hs
  | num n => rfl
  | undef => rfl

/-- C1: whenever the credential verifier stage (`jwtAuth`) fails, the
response has status 401 and the pipeline executes only the authenticating
stage — neither the policy enforcer (`requireRole`) nor the downstream
handler ever runs, for any declared allowed-role list, so authorization is
never evaluated before authentication has succeeded. -/
theorem authFailureShortCircuits (env : TokenEnv) (secret : String) (req : Request)
    (s : Nat) (e m : String) (h : jwtAuth env secret req = MwResult.reject s e m) :
    s = 401 ∧ ∀ allowedRoles : List String,
      pipeline env secret allowedRoles req =
        ([Stage.authenticating], Outcome.rejected 401 e m) := by
  obtain ⟨hs, -⟩ := lem_jwtAuth_reject401 env secret req s e m h
  subst hs
  refine ⟨rfl, fun allowedRoles => ?_⟩
  unfold pipeline
  rw [h]

/-- C1 witness: a request with no authorization header is rejected at the
authenticating stage with status 401 and nothing after it runs. -/
theorem authFailureShortCircuitsWitness :
    pipeline demoEnv "sec" ["member", "librarian"] ⟨none, "/api/books", ""⟩ =
      ([Stage.authenticating],
        Outcome.rejected 401 "TidakTerautentikasi" missingTokenMsg) :=
  (authFailureShortCircuits demoEnv "sec" ⟨none, "/api/books", ""⟩ 401
    "TidakTerautentikasi" missingTokenMsg (by decide)).2 ["member", "librarian"]

/-- C2: `requireRole` succeeds exactly when an identity is attached and its
role is included in the declared allowed-role list; in every other case it
rejects with 403 and error `AksesDitolak`, never implicitly permitting. -/
theorem requireRoleCharacterization (allowedRoles : List String) (user : Option User) :
    (requireRole allowedRoles user = RoleResult.next ↔
      ∃ u : User, user = some u ∧ jvalInList allowedRoles u.role = true) ∧
    (requireRole allowedRoles user ≠ RoleResult.next →
      requireRole allowedRoles user =
        RoleResult.reject 403 "AksesDitolak" forbiddenMsg) := by
  constructor
  · constructor
    · intro h
      match user with
      | none => exact RoleResult.noConfusion h.symm
      | some u =>
        refine ⟨u, rfl, ?_⟩
        by_cases hb : jvalInList allowedRoles u.role = true
        · exact hb
        · simp only [requireRole, hb, if_false] at h
          exact RoleResult.noConfusion h.symm
    · rintro ⟨u, rfl, hb⟩
      simp [requireRole, hb]
  · intro h
    match user with
    | none => rfl
    | some u =>
      by_cases hb : jvalInList allowedRoles u.role = true
      · exact absurd (by simp [requireRole, hb]) h
      · simp [requireRole, hb]

/-- C2 witness: a member identity against a librarian-only policy is
rejected with 403 `AksesDitolak`. -/
theorem requireRoleCharacterizationWitness :
    requireRole ["librarian"] (some ⟨"7", JVal.str "member"⟩) =
      RoleResult.reject 403 "AksesDitolak" forbiddenMsg :=
  (requireRoleCharacterization ["librarian"] (some ⟨"7", JVal.str "member"⟩)).2
    (by decide)

/-- C3: when the authorization header is absent, or present but not
beginning with the literal prefix `Bearer ` (case-sensitive, single
space), `jwtAuth` returns the missing/malformed-credential rejection:
status 401 with error `TidakTerautentikasi` and the fixed missing-token
message. `jwtAuth` is a total function, so no unhandled fault is ever
raised. -/
theorem missingBearerRejected (env : TokenEnv) (secret : String) (req : Request)
    (h : ∀ s : String, req.authorization = some s → jsStartsWith s "Bearer " = false) :
    jwtAuth env secret req =
      MwResult.reject 401 "TidakTerautentikasi" missingTokenMsg := by
  obtain ⟨auth, path, body⟩ := req
  cases auth with
  | none => rfl
  | some s =>
    have hs := h s rfl
    simp only [jwtAuth, Option.getD, hs, Bool.false_eq_true, if_false]

/-- C3 witness: the header `Basic abc123` (scenario C of the spec) is
rejected as missing/malformed. -/
theorem missingBearerRejectedWitness :
    jwtAuth demoEnv "sec" ⟨some "Basic abc123", "/api/books", ""⟩ =
      MwResult.reject 401 "TidakTerautentikasi" missingTokenMsg :=
  missingBearerRejected demoEnv "sec" ⟨some "Basic abc123", "/api/books", ""⟩
    (fun s hs => by injection hs with h2; subst h2; decide)

/-- C4: every token that fails verification — malformed, signed with a
wrong secret, or expired — produces one and the same rejection: status 401
with error `TidakTerautentikasi` and the fixed generic invalid-token
message, regardless of the token's claim content, so the distinct failure
causes are indistinguishable to the caller. -/
theorem invalidTokenRejected (env : TokenEnv) (secret : String) (req : Request)
    (hdr : String)
    (hh : req.authorization = some hdr)
    (hp : jsStartsWith hdr "Bearer " = true)
    (hv : jwtVerify env secret (jsTrim (jsSlice hdr 7)) = none) :
    jwtAuth env secret req =
      MwResult.reject 401 "TidakTerautentikasi" invalidTokenMsg :=
  lem_jwtAuth_invalid env secret req hdr hh hp hv

/-- C4 witness: a well-formed token signed with a different secret is
rejected with the fixed invalid-token message. -/
theorem invalidTokenRejectedWitness :
    jwtAuth demoEnv "sec" ⟨some "Bearer tokWrong", "/api/books", ""⟩ =
      MwResult.reject 401 "TidakTerautentikasi" invalidTokenMsg :=
  invalidTokenRejected demoEnv "sec" ⟨some "Bearer tokWrong", "/api/books", ""⟩
    "Bearer tokWrong" rfl (by decide) (by decide)

/-- C5: a valid, unexpired token signed with the configured secret passes
verification and yields an identity whose `userId` is the token's `userId`
claim coerced to a string whatever its encoded type, and whose role is the
token's role claim. -/
theorem validTokenIdentity (env : TokenEnv) (secret : String) (req : Request)
    (hdr : String) (t : SignedToken)
    (hh : req.authorization = some hdr)
    (hp : jsStartsWith hdr "Bearer " = true)
    (he : env (jsTrim (jsSlice hdr 7)) = some t)
    (hs : t.signedWith = secret)
    (hx : t.expired = false) :
    jwtAuth env secret req =
      MwResult.next ⟨jsStringOf t.claims.userId, t.claims.role⟩ :=
  lem_jwtAuth_ok env secret req hdr t hh hp he hs hx

/-- C5 witness: scenario A of the spec — claims `userId = 7` (a number)
and `role = "member"` give the identity `userId = "7"`, `role = "member"`. -/
theorem validTokenIdentityWitness :
    jwtAuth demoEnv "sec" ⟨some "Bearer tok7", "/api/books", ""⟩ =
      MwResult.next ⟨"7", JVal.str "member"⟩ :=
  validTokenIdentity demoEnv "sec" ⟨some "Bearer tok7", "/api/books", ""⟩
    "Bearer tok7" ⟨"sec", false, ⟨JVal.num 7, JVal.str "member"⟩⟩
    rfl (by decide) (by decide) rfl rfl

/-- C6: verification and authorization are deterministic and stateless:
`jwtAuth` depends on nothing of the request but its authorization header
(so verifying the same credential twice yields identical identities), and
`requireRole` is a pure function of the pair of identity and allowed-role
list alone. -/
theorem authStateless (env : TokenEnv) (secret : String) :
    (∀ r1 r2 : Request, r1.authorization = r2.authorization →
      jwtAuth env secret r1 = jwtAuth env secret r2) ∧
    (∀ (a1 a2 : List String) (u1 u2 : Option User), a1 = a2 → u1 = u2 →
      requireRole a1 u1 = requireRole a2 u2) := by
  refine ⟨fun r1 r2 h => ?_, fun a1 a2 u1 u2 h1 h2 => by rw [h1, h2]⟩
  unfold jwtAuth
  rw [h]

/-- C6 witness: two requests carrying the same credential but different
paths and bodies receive identical verification outcomes. -/
theorem authStatelessWitness :
    jwtAuth demoEnv "sec" ⟨some "Bearer tok7", "/api/books", ""⟩ =
      jwtAuth demoEnv "sec" ⟨some "Bearer tok7", "/api/stats", "other"⟩ :=
  (authStateless demoEnv "sec").1 ⟨some "Bearer tok7", "/api/books", ""⟩
    ⟨some "Bearer tok7", "/api/stats", "other"⟩ rfl

/-- C7: when the `JWT_SECRET` environment configuration is absent, the
configured secret is the fixed hardcoded default
`your-secret-key-change-this`, and the verifier behaves exactly as with
that explicit secret; the value is a constant established once, never
mutated. -/
theorem secretFallback :
    JWT_SECRET none = "your-secret-key-change-this" ∧
    ∀ (env : TokenEnv) (req : Request),
      jwtAuth env (JWT_SECRET none) req =
        jwtAuth env "your-secret-key-change-this" req :=
  ⟨rfl, fun _ _ => rfl⟩

/-- C8: the verifier does not check the role claim against the closed role
set — a correctly signed, unexpired token with any role value passes
authentication and yields an identity carrying that role; but an identity
whose role is outside the set of member and librarian is then rejected 403
by the policy of every declared route, so no handler is reachable with
such a role. -/
theorem roleOutsideClosedSet (env : TokenEnv) (secret : String) (req : Request)
    (hdr : String) (t : SignedToken)
    (hh : req.authorization = some hdr)
    (hp : jsStartsWith hdr "Bearer " = true)
    (he : env (jsTrim (jsSlice hdr 7)) = some t)
    (hs : t.signedWith = secret)
    (hx : t.expired = false)
    (hr : jvalInList ["member", "librarian"] t.claims.role = false) :
    jwtAuth env secret req =
      MwResult.next ⟨jsStringOf t.claims.userId, t.claims.role⟩ ∧
    ∀ route ∈ routes,
      pipeline env secret route.2.2 req =
        ([Stage.authenticating, Stage.authorizing],
          Outcome.rejected 403 "AksesDitolak" forbiddenMsg) := by
  have hok := lem_jwtAuth_ok env secret req hdr t hh hp he hs hx
  refine ⟨hok, fun route hroute => ?_⟩
  have hfalse : jvalInList route.2.2 t.claims.role = false := by
    fin_cases hroute <;> first | exact hr | exact lem_role_subset _ hr
  unfold pipeline
  rw [hok]
  simp only [requireRole, hfalse, Bool.false_eq_true, if_false]

/-- C8 witness: a correctly signed token with role `admin` authenticates,
then is rejected 403 on the books listing route. -/
theorem roleOutsideClosedSetWitness :
    pipeline demoEnv "sec" ["member", "librarian"]
        ⟨some "Bearer tokAdmin", "/api/books", ""⟩ =
      ([Stage.authenticating, Stage.authorizing],
        Outcome.rejected 403 "AksesDitolak" forbiddenMsg) :=
  (roleOutsideClosedSet demoEnv "sec" ⟨some "Bearer tokAdmin", "/api/books", ""⟩
      "Bearer tokAdmin" ⟨"sec", false, ⟨JVal.num 9, JVal.str "admin"⟩⟩
      rfl (by decide) (by decide) rfl rfl (by decide)).2
    ("GET", "/api/books", ["member", "librarian"]) (by decide)

/-- C9: a correctly signed, unexpired token lacking a `userId` claim still
verifies, and the resulting identity's `userId` is the literal string
`undefined` — the JavaScript coercion of the missing claim — not an error. -/
theorem missingUserIdUndefined (env : TokenEnv) (secret : String) (req : Request)
    (hdr : String) (t : SignedToken)
    (hh : req.authorization = some hdr)
    (hp : jsStartsWith hdr "Bearer " = true)
    (he : env (jsTrim (jsSlice hdr 7)) = some t)
    (hs : t.signedWith = secret)
    (hx : t.expired = false)
    (hu : t.claims.userId = JVal.undef) :
    jwtAuth env secret req = MwResult.next ⟨"undefined", t.claims.role⟩ := by
  rw [lem_jwtAuth_ok env secret req hdr t hh hp he hs hx, hu]
  rfl

/-- C9 witness: a valid token with no `userId` claim yields the identity
with `userId = "undefined"`. -/
theorem missingUserIdUndefinedWitness :
    jwtAuth demoEnv "sec" ⟨some "Bearer tokNoUid", "/api/books", ""⟩ =
      MwResult.next ⟨"undefined", JVal.str "member"⟩ :=
  missingUserIdUndefined demoEnv "sec" ⟨some "Bearer tokNoUid", "/api/books", ""⟩
    "Bearer tokNoUid" ⟨"sec", false, ⟨JVal.undef, JVal.str "member"⟩⟩
    rfl (by decide) (by decide) rfl rfl rfl

/-- C10 counterexample: the header `Bearer\t` is the word `Bearer`
followed only by whitespace, yet it does not pass the prefix check — the
prefix requires the single-space form `Bearer ` literally — so `jwtAuth`
rejects it with the missing-token message, not the invalid-token one. -/
theorem bearerTabCounterexample :
    (jsSlice "Bearer\t" 6).toList.all Char.isWhitespace = true ∧
    jsStartsWith "Bearer\t" "Bearer " = false ∧
    jwtAuth demoEnv "sec" ⟨some "Bearer\t", "/api/books", ""⟩ =
      MwResult.reject 401 "TidakTerautentikasi" missingTokenMsg := by decide

/-- C10 (amended): a header beginning with the literal prefix `Bearer `
whose remainder trims to the empty string — exactly `Bearer `, or `Bearer `
followed only by whitespace — passes the prefix check; the empty token then
fails cryptographic verification (the empty string is not a well-formed
token) and is rejected as the invalid/expired-credential class of 401,
with that class's fixed message. -/
theorem whitespaceOnlyBearerInvalid (env : TokenEnv) (secret : String) (req : Request)
    (hdr : String)
    (hh : req.authorization = some hdr)
    (hp : jsStartsWith hdr "Bearer " = true)
    (hw : jsTrim (jsSlice hdr 7) = "")
    (he : env "" = none) :
    jwtAuth env secret req =
      MwResult.reject 401 "TidakTerautentikasi" invalidTokenMsg := by
  have hv : jwtVerify env secret (jsTrim (jsSlice hdr 7)) = none := by
    rw [hw]
    unfold jwtVerify
    rw [he]
  exact lem_jwtAuth_invalid env secret req hdr hh hp hv

/-- C10 (amended) witness: the header `Bearer ` followed by two further
spaces passes the prefix check and is rejected with the invalid-token
message. -/
theorem whitespaceOnlyBearerInvalidWitness :
    jwtAuth demoEnv "sec" ⟨some "Bearer   ", "/api/books", ""⟩ =
      MwResult.reject 401 "TidakTerautentikasi" invalidTokenMsg :=
  whitespaceOnlyBearerInvalid demoEnv "sec" ⟨some "Bearer   ", "/api/books", ""⟩
    "Bearer   " rfl (by decide) (by decide) rfl

end BooksApi
